import Mathlib

/-!
Verification of the Sol-Ark cloud integration (HomeAssistant_SolArk).

This file gives a shallow embedding of the parts of the repository that the
frozen claims are about:

* the field normalizer `parse_plant_data` and its helper `_safe_float`
  (src/custom_components/solark/api.py, lines 463-611);
* the telemetry-fetcher merge logic of `get_plant_data` and
  `_get_inverter_live_data` (same file, lines 387-448);
* the `Auto`-mode authentication strategy loop of `SolArkAPI.authenticate`
  (src/solark_api.py, lines 55-77) and the token guard at the top of
  `SolArkAPI.get_plant_data` (same file, lines 180-183);
* a small interleaving model of two concurrent `authenticate()` calls
  serialized by the `asyncio.Lock` held in `SolArkAPI`.

Python dictionaries are embedded as insertion-ordered association lists with
unique keys; Python float values are modelled by rational numbers (the claims
under scrutiny are about the branching / defaulting logic, not about IEEE-754
rounding); JSON scalars are modelled by the inductive `JVal`.
-/

/-- A Python `dict` with `String` keys, as an insertion-ordered association
list.  All operations below mirror CPython semantics for dicts whose keys are
unique (which assignment via `Dict.set` preserves). -/
abbrev Dict (α : Type) := List (String × α)

/-- `d[k]` lookup returning `none` when the key is absent. -/
def Dict.get? {α : Type} : Dict α → String → Option α
  | [], _ => none
  | (k', v) :: t, k => if k' = k then some v else Dict.get? t k

/-- `k in d` membership test. -/
def Dict.contains {α : Type} (d : Dict α) (k : String) : Bool :=
  (d.get? k).isSome

/-- `d[k] = v` assignment: replaces the value in place when the key exists
(preserving insertion order), otherwise appends the new pair at the end,
exactly as a CPython dict does. -/
def Dict.set {α : Type} : Dict α → String → α → Dict α
  | [], k, v => [(k, v)]
  | (k', v') :: t, k, v =>
      if k' = k then (k, v) :: t else (k', v') :: Dict.set t k v

/-- `d.setdefault(k, v)`: inserts `v` under `k` only when `k` is absent. -/
def Dict.setdefault {α : Type} (d : Dict α) (k : String) (v : α) : Dict α :=
  if d.contains k then d else d.set k v

theorem Dict.get?_set_self {α : Type} (d : Dict α) (k : String) (v : α) :
    (d.set k v).get? k = some v := by
  induction d with
  | nil => simp [Dict.set, Dict.get?]
  | cons p t ih =>
      by_cases h : p.1 = k
      · simp [Dict.set, Dict.get?, h]
      · simp [Dict.set, Dict.get?, h, ih]

theorem Dict.get?_set_ne {α : Type} (d : Dict α) {k k' : String} (v : α)
    (h : k' ≠ k) : (d.set k v).get? k' = d.get? k' := by
  have h' : ¬ (k = k') := fun hh => h hh.symm
  induction d with
  | nil => simp [Dict.set, Dict.get?, h']
  | cons p t ih =>
      by_cases hp : p.1 = k
      · subst hp
        simp [Dict.set, Dict.get?, h']
      · by_cases hp' : p.1 = k'
        · simp [Dict.set, Dict.get?, hp, hp', h]
        · simp [Dict.set, Dict.get?, hp, hp', ih]

theorem Dict.contains_set_self {α : Type} (d : Dict α) (k : String) (v : α) :
    (d.set k v).contains k = true := by
  simp [Dict.contains, Dict.get?_set_self]

theorem Dict.contains_set_ne {α : Type} (d : Dict α) {k k' : String} (v : α)
    (h : k' ≠ k) : (d.set k v).contains k' = d.contains k' := by
  simp [Dict.contains, Dict.get?_set_ne d v h]

theorem Dict.get?_setdefault_self {α : Type} (d : Dict α) (k : String) (v : α) :
    (d.setdefault k v).get? k = some ((d.get? k).getD v) := by
  unfold Dict.setdefault
  by_cases h : d.contains k = true
  · simp only [h, if_true]
    rcases ho : d.get? k with _ | w
    · simp [Dict.contains, ho] at h
    · simp [ho]
  · have ho : d.get? k = none := by
      rcases hoo : d.get? k with _ | w
      · rfl
      · exact absurd (by simp [Dict.contains, hoo]) h
    simp [h, ho, Dict.get?_set_self]

theorem Dict.get?_setdefault_ne {α : Type} (d : Dict α) {k k' : String} (v : α)
    (h : k' ≠ k) : (d.setdefault k v).get? k' = d.get? k' := by
  unfold Dict.setdefault
  by_cases hc : d.contains k = true
  · simp [hc]
  · simp [hc, Dict.get?_set_ne d v h]

/-- A JSON scalar value as it arrives from the vendor API (after `json()`
decoding).  `jstr` carries, next to the raw string, the result of Python's
`float(s)` conversion (`none` when that conversion raises `ValueError`);
`jcoll` stands for a decoded list or nested object together with its Python
truthiness (`float()` on those raises `TypeError`). -/
inductive JVal : Type
  | jnull
  | jbool (b : Bool)
  | jnum (q : ℚ)
  | jstr (s : String) (numVal : Option ℚ)
  | jcoll (truthiness : Bool)
deriving DecidableEq

/-- `data.get(k)`: Python returns `None` both for an absent key and for a
stored JSON null, so the defaulted lookup collapses the two into `jnull`. -/
def dget (d : Dict JVal) (k : String) : JVal :=
  (d.get? k).getD JVal.jnull

/-- `data.get(k, dflt)` with an explicit default. -/
def dgetD (d : Dict JVal) (k : String) (dflt : JVal) : JVal :=
  (d.get? k).getD dflt

/-- `SolArkCloudAPI._safe_float` (api.py lines 463-469): `None` coerces to
`0.0`, numbers and numeric strings to their value, booleans to `1.0`/`0.0`
(Python `float(True) = 1.0`), and anything whose `float()` raises
`TypeError`/`ValueError` degrades to `0.0`. -/
def safe_float : JVal → ℚ
  | .jnull => 0
  | .jbool b => if b then 1 else 0
  | .jnum q => q
  | .jstr _ p => p.getD 0
  | .jcoll _ => 0

/-- Python truthiness of a decoded JSON scalar. -/
def truthy : JVal → Bool
  | .jnull => false
  | .jbool b => b
  | .jnum q => decide (q ≠ 0)
  | .jstr s _ => decide (s ≠ "")
  | .jcoll t => t

/-- The argument passed to `parse_plant_data`: either a decoded JSON object
or one of the non-dict shapes the guard at api.py lines 480-482 rejects. -/
inductive RawInput : Type
  | pydict (d : Dict JVal)
  | pynone
  | pylist (elems : List JVal)
  | pystr (s : String)

/-- `True` exactly on the `isinstance(data, dict)` case. -/
def RawInput.isDict : RawInput → Bool
  | .pydict _ => true
  | _ => false

/-- api.py lines 489-496: energy today / total, preferring `energyToday` /
`energyTotal` over the legacy `etoday` / `etotal` spellings. -/
def parseEnergy (d : Dict JVal) (s : Dict ℚ) : Dict ℚ :=
  let s :=
    if d.contains "energyToday" || d.contains "etoday" then
      s.set "energy_today" (safe_float (dgetD d "energyToday" (dget d "etoday")))
    else s
  if d.contains "energyTotal" || d.contains "etotal" then
    s.set "energy_total" (safe_float (dgetD d "energyTotal" (dget d "etotal")))
  else s

/-- api.py lines 498-508: battery SOC, preferring the flow `soc` field and
falling back to `curCap / batteryCap * 100`, guarded by `batteryCap > 0`. -/
def parseSoc (d : Dict JVal) (s : Dict ℚ) : Dict ℚ :=
  let s :=
    if d.contains "soc" then s.set "battery_soc" (safe_float (dget d "soc"))
    else s
  if s.contains "battery_soc" then s
  else
    let cur_cap := safe_float (dget d "curCap")
    let batt_cap := safe_float (dget d "batteryCap")
    if batt_cap > 0 then s.set "battery_soc" ((cur_cap / batt_cap) * 100)
    else s

/-- The key pairs `(f"volt{i}", f"current{i}")` visited by the loop
`for i in range(1, 13)` of api.py lines 517-524, written out literally. -/
def pvStringKeys : List (String × String) :=
  [("volt1", "current1"), ("volt2", "current2"), ("volt3", "current3"),
   ("volt4", "current4"), ("volt5", "current5"), ("volt6", "current6"),
   ("volt7", "current7"), ("volt8", "current8"), ("volt9", "current9"),
   ("volt10", "current10"), ("volt11", "current11"), ("volt12", "current12")]

/-- The MPPT-string fallback sum of api.py lines 516-524: for each string
index `i` in `range(1, 13)`, skip the index when both `volt{i}` and
`current{i}` read back as `None`, otherwise add the product of their safe
conversions. -/
def pvStringSum (d : Dict JVal) : ℚ :=
  pvStringKeys.foldl
    (fun acc kv =>
      let v_raw := dget d kv.1
      let c_raw := dget d kv.2
      if v_raw = JVal.jnull ∧ c_raw = JVal.jnull then acc
      else acc + safe_float v_raw * safe_float c_raw)
    0

/-- api.py lines 510-527: PV power, preferring the flow `pvPower` field; the
string-sum fallback is only written when non-zero. -/
def parsePv (d : Dict JVal) (s : Dict ℚ) : Dict ℚ :=
  let s :=
    if d.contains "pvPower" then s.set "pv_power" (safe_float (dget d "pvPower"))
    else s
  let pv_sum := pvStringSum d
  if s.contains "pv_power" = false ∧ pv_sum ≠ 0 then s.set "pv_power" pv_sum
  else s

/-- api.py lines 529-539: battery power, preferring the flow `battPower`
field, with the `curVolt * chargeCurrent` fallback only when one of the two
raw readings is non-zero. -/
def parseBattPower (d : Dict JVal) (s : Dict ℚ) : Dict ℚ :=
  let s :=
    if d.contains "battPower" then
      s.set "battery_power" (safe_float (dget d "battPower"))
    else s
  if s.contains "battery_power" then s
  else
    let cur_volt := safe_float (dget d "curVolt")
    let charge_current := safe_float (dget d "chargeCurrent")
    if cur_volt ≠ 0 ∨ charge_current ≠ 0 then
      s.set "battery_power" (cur_volt * charge_current)
    else s

/-- api.py lines 541-547: net grid power and load power, both taken directly
from the flow fields when present (no fallback computation exists). -/
def parseGridLoad (d : Dict JVal) (s : Dict ℚ) : Dict ℚ :=
  let s :=
    if d.contains "gridOrMeterPower" then
      s.set "grid_power" (safe_float (dget d "gridOrMeterPower"))
    else s
  if d.contains "loadOrEpsPower" then
    s.set "load_power" (safe_float (dget d "loadOrEpsPower"))
  else s

/-- The three-phase meter sum `meterA + meterB + meterC` of api.py
lines 552-555, each phase coerced with `_safe_float`. -/
def gridNet (d : Dict JVal) : ℚ :=
  safe_float (dget d "meterA") + safe_float (dget d "meterB")
    + safe_float (dget d "meterC")

/-- api.py lines 549-595: the grid import/export polarity block.  Both keys
are first assigned `0.0`; a non-zero meter sum decides import vs export by
sign; otherwise the `toGrid`/`gridTo` boolean flags split the absolute flow
value; otherwise explicit `gridImportPower`/`gridExportPower` fields are
taken at face value. -/
def parseGridImportExport (d : Dict JVal) (s : Dict ℚ) : Dict ℚ :=
  let s := s.set "grid_import_power" 0
  let s := s.set "grid_export_power" 0
  let grid_net := gridNet d
  if grid_net ≠ 0 then
    if grid_net > 0 then s.set "grid_import_power" grid_net
    else s.set "grid_export_power" |grid_net|
  else
    if (d.contains "toGrid" || d.contains "gridTo")
        ∧ (truthy (dgetD d "toGrid" (JVal.jbool false))
            || truthy (dgetD d "gridTo" (JVal.jbool false))) then
      let grid_or_meter := safe_float (dget d "gridOrMeterPower")
      if grid_or_meter ≠ 0 then
        if truthy (dgetD d "toGrid" (JVal.jbool false)) then
          s.set "grid_export_power" |grid_or_meter|
        else s.set "grid_import_power" |grid_or_meter|
      else s
    else
      let s :=
        if d.contains "gridImportPower" then
          s.set "grid_import_power" (safe_float (dget d "gridImportPower"))
        else s
      if d.contains "gridExportPower" then
        s.set "grid_export_power" (safe_float (dget d "gridExportPower"))
      else s

/-- api.py lines 599-608: the nine `setdefault(…, 0.0)` calls that guarantee
every canonical key is present in the result. -/
def ensureDefaults (s : Dict ℚ) : Dict ℚ :=
  ((((((((s.setdefault "pv_power" 0).setdefault "battery_power" 0).setdefault
      "grid_power" 0).setdefault "load_power" 0).setdefault
      "grid_import_power" 0).setdefault "grid_export_power" 0).setdefault
      "battery_soc" 0).setdefault "energy_today" 0).setdefault
      "energy_total" 0

/-- `SolArkCloudAPI.parse_plant_data` (api.py lines 471-611): non-dict input
short-circuits to the empty mapping; dict input runs the section-by-section
normalization pipeline above. -/
def parse_plant_data : RawInput → Dict ℚ
  | .pydict d =>
      ensureDefaults
        (parseGridImportExport d
          (parseGridLoad d
            (parseBattPower d
              (parsePv d
                (parseSoc d
                  (parseEnergy d []))))))
  | _ => []

/-- Every source key `parse_plant_data` ever reads from the raw record. -/
def knownKeys : List String :=
  ["energyToday", "etoday", "energyTotal", "etotal", "soc", "curCap",
   "batteryCap", "pvPower",
   "volt1", "volt2", "volt3", "volt4", "volt5", "volt6", "volt7", "volt8",
   "volt9", "volt10", "volt11", "volt12",
   "current1", "current2", "current3", "current4", "current5", "current6",
   "current7", "current8", "current9", "current10", "current11", "current12",
   "battPower", "curVolt", "chargeCurrent", "gridOrMeterPower",
   "loadOrEpsPower", "meterA", "meterB", "meterC", "toGrid", "gridTo",
   "gridImportPower", "gridExportPower"]

/-- The nine canonical keys guaranteed present in every dict-input result. -/
def guaranteedKeys : List String :=
  ["pv_power", "battery_power", "grid_power", "load_power",
   "grid_import_power", "grid_export_power", "battery_soc", "energy_today",
   "energy_total"]

example :
    (parse_plant_data (.pydict [("meterA", .jnum 10), ("meterB", .jnum 20)])).get?
      "grid_import_power" = some 30 := by
  simp +decide [parse_plant_data, parseEnergy, parseSoc, parsePv, pvStringSum,
    parseBattPower, parseGridLoad, parseGridImportExport, gridNet,
    ensureDefaults, Dict.get?, Dict.set, Dict.setdefault, Dict.contains,
    dget, dgetD, safe_float, truthy]
  norm_num [Dict.get?, Dict.set, Dict.setdefault, Dict.contains]

example :
    (parse_plant_data (.pydict [("curCap", .jnum 50), ("batteryCap", .jnum 200)])).get?
      "battery_soc" = some 25 := by
  simp +decide [parse_plant_data, parseEnergy, parseSoc, parsePv, pvStringSum,
    parseBattPower, parseGridLoad, parseGridImportExport, gridNet,
    ensureDefaults, Dict.get?, Dict.set, Dict.setdefault, Dict.contains,
    dget, dgetD, safe_float, truthy]
  norm_num [Dict.get?, Dict.set, Dict.setdefault, Dict.contains]

/-! ### Stage framing lemmas

Each normalization stage writes a fixed set of canonical keys; every other
key of the accumulating sensor dict passes through untouched. -/

theorem parseEnergy_get?_untouched (d : Dict JVal) (s : Dict ℚ) (k : String)
    (h1 : k ≠ "energy_today") (h2 : k ≠ "energy_total") :
    (parseEnergy d s).get? k = s.get? k := by
  simp only [parseEnergy, apply_ite (fun t : Dict ℚ => t.get? k)]
  simp [Dict.get?_set_ne, h1, h2, ite_self,
    apply_ite (fun t : Dict ℚ => t.get? k)]

theorem parseSoc_get?_untouched (d : Dict JVal) (s : Dict ℚ) (k : String)
    (h : k ≠ "battery_soc") :
    (parseSoc d s).get? k = s.get? k := by
  simp only [parseSoc, apply_ite (fun t : Dict ℚ => t.get? k)]
  simp [Dict.get?_set_ne, h, ite_self,
    apply_ite (fun t : Dict ℚ => t.get? k)]

theorem parsePv_get?_untouched (d : Dict JVal) (s : Dict ℚ) (k : String)
    (h : k ≠ "pv_power") :
    (parsePv d s).get? k = s.get? k := by
  simp only [parsePv, apply_ite (fun t : Dict ℚ => t.get? k)]
  simp [Dict.get?_set_ne, h, ite_self,
    apply_ite (fun t : Dict ℚ => t.get? k)]

theorem parseBattPower_get?_untouched (d : Dict JVal) (s : Dict ℚ) (k : String)
    (h : k ≠ "battery_power") :
    (parseBattPower d s).get? k = s.get? k := by
  simp only [parseBattPower, apply_ite (fun t : Dict ℚ => t.get? k)]
  simp [Dict.get?_set_ne, h, ite_self,
    apply_ite (fun t : Dict ℚ => t.get? k)]

theorem parseGridLoad_get?_untouched (d : Dict JVal) (s : Dict ℚ) (k : String)
    (h1 : k ≠ "grid_power") (h2 : k ≠ "load_power") :
    (parseGridLoad d s).get? k = s.get? k := by
  simp only [parseGridLoad, apply_ite (fun t : Dict ℚ => t.get? k)]
  simp [Dict.get?_set_ne, h1, h2, ite_self,
    apply_ite (fun t : Dict ℚ => t.get? k)]

theorem parseGridImportExport_get?_untouched (d : Dict JVal) (s : Dict ℚ)
    (k : String) (h1 : k ≠ "grid_import_power") (h2 : k ≠ "grid_export_power") :
    (parseGridImportExport d s).get? k = s.get? k := by
  simp only [parseGridImportExport, apply_ite (fun t : Dict ℚ => t.get? k)]
  simp [Dict.get?_set_ne, h1, h2, ite_self,
    apply_ite (fun t : Dict ℚ => t.get? k)]

theorem ensureDefaults_get?_mem (s : Dict ℚ) (k : String)
    (hk : k ∈ guaranteedKeys) :
    (ensureDefaults s).get? k = some ((s.get? k).getD 0) := by
  simp only [guaranteedKeys, List.mem_cons, List.not_mem_nil, or_false] at hk
  rcases hk with rfl | rfl | rfl | rfl | rfl | rfl | rfl | rfl | rfl <;>
    simp +decide [ensureDefaults, Dict.get?_setdefault_self,
      Dict.get?_setdefault_ne]

theorem ensureDefaults_get?_untouched (s : Dict ℚ) (k : String)
    (hk : k ∉ guaranteedKeys) :
    (ensureDefaults s).get? k = s.get? k := by
  simp only [guaranteedKeys, List.mem_cons, List.not_mem_nil, or_false,
    not_or] at hk
  obtain ⟨h1, h2, h3, h4, h5, h6, h7, h8, h9⟩ := hk
  simp [ensureDefaults, Dict.get?_setdefault_ne, h1, h2, h3, h4, h5, h6, h7,
    h8, h9]

/-! ### The grid import/export polarity block (claim C1) -/

theorem parseGridImportExport_pos (d : Dict JVal) (s : Dict ℚ)
    (h : gridNet d > 0) :
    (parseGridImportExport d s).get? "grid_import_power" = some (gridNet d) ∧
    (parseGridImportExport d s).get? "grid_export_power" = some 0 := by
  have hne : gridNet d ≠ 0 := ne_of_gt h
  unfold parseGridImportExport
  simp only [if_pos hne, if_pos h]
  constructor
  · exact Dict.get?_set_self ..
  · rw [Dict.get?_set_ne _ _ (by decide), Dict.get?_set_self]

theorem parseGridImportExport_neg (d : Dict JVal) (s : Dict ℚ)
    (h : gridNet d < 0) :
    (parseGridImportExport d s).get? "grid_export_power" = some |gridNet d| ∧
    (parseGridImportExport d s).get? "grid_import_power" = some 0 := by
  have hne : gridNet d ≠ 0 := ne_of_lt h
  have hng : ¬ gridNet d > 0 := not_lt_of_gt h
  unfold parseGridImportExport
  simp only [if_pos hne, if_neg hng]
  constructor
  · exact Dict.get?_set_self ..
  · rw [Dict.get?_set_ne _ _ (by decide),
      Dict.get?_set_ne _ _ (by decide), Dict.get?_set_self]

/-- **C1.**  For every raw record, when the safe-float sum
`meterA + meterB + meterC` is strictly positive the normalized output carries
that sum as `grid_import_power` and `0.0` as `grid_export_power`; when it is
strictly negative the output carries its absolute value as
`grid_export_power` and `0.0` as `grid_import_power`; and whenever the
import/export split is meter-derived (non-zero meter sum), at most one of the
two keys is non-zero. -/
theorem C1_grid_polarity (d : Dict JVal) :
    (gridNet d > 0 →
      (parse_plant_data (.pydict d)).get? "grid_import_power"
          = some (gridNet d) ∧
      (parse_plant_data (.pydict d)).get? "grid_export_power" = some 0) ∧
    (gridNet d < 0 →
      (parse_plant_data (.pydict d)).get? "grid_export_power"
          = some |gridNet d| ∧
      (parse_plant_data (.pydict d)).get? "grid_import_power" = some 0) ∧
    (gridNet d ≠ 0 →
      (parse_plant_data (.pydict d)).get? "grid_import_power" = some 0 ∨
      (parse_plant_data (.pydict d)).get? "grid_export_power" = some 0) := by
  unfold parse_plant_data
  refine ⟨fun h => ?_, fun h => ?_, fun h => ?_⟩
  · obtain ⟨hi, he⟩ := parseGridImportExport_pos d
      (parseGridLoad d (parseBattPower d (parsePv d (parseSoc d (parseEnergy d []))))) h
    rw [ensureDefaults_get?_mem _ _ (by decide),
      ensureDefaults_get?_mem _ _ (by decide), hi, he]
    simp
  · obtain ⟨he, hi⟩ := parseGridImportExport_neg d
      (parseGridLoad d (parseBattPower d (parsePv d (parseSoc d (parseEnergy d []))))) h
    rw [ensureDefaults_get?_mem _ _ (by decide),
      ensureDefaults_get?_mem _ _ (by decide), hi, he]
    simp
  · rcases lt_or_gt_of_ne h with hlt | hgt
    · left
      obtain ⟨_, hi⟩ := parseGridImportExport_neg d
        (parseGridLoad d (parseBattPower d (parsePv d (parseSoc d (parseEnergy d []))))) hlt
      rw [ensureDefaults_get?_mem _ _ (by decide), hi]
      simp
    · right
      obtain ⟨_, he⟩ := parseGridImportExport_pos d
        (parseGridLoad d (parseBattPower d (parsePv d (parseSoc d (parseEnergy d []))))) hgt
      rw [ensureDefaults_get?_mem _ _ (by decide), he]
      simp

/-- Concrete record exercising C1: two meter phases importing 10 W and 20 W. -/
def recMeter : Dict JVal := [("meterA", .jnum 10), ("meterB", .jnum 20)]

/-- Witness for C1 at `recMeter`, whose meter sum is `30 > 0`. -/
theorem C1_grid_polarity_witness :
    gridNet recMeter > 0 ∧
    (parse_plant_data (.pydict recMeter)).get? "grid_import_power"
        = some (gridNet recMeter) ∧
    (parse_plant_data (.pydict recMeter)).get? "grid_export_power" = some 0 := by
  have hpos : gridNet recMeter > 0 := by
    simp +decide [gridNet, recMeter, dget, Dict.get?, safe_float]
    norm_num
  obtain ⟨hi, he⟩ := (C1_grid_polarity recMeter).1 hpos
  exact ⟨hpos, hi, he⟩

/-! ### Records containing none of the known source keys (claim C2) -/

theorem noKnown_contains (d : Dict JVal)
    (h : ∀ k ∈ knownKeys, d.get? k = none) :
    ∀ k ∈ knownKeys, d.contains k = false := by
  intro k hk
  simp [Dict.contains, h k hk]

theorem noKnown_dget (d : Dict JVal)
    (h : ∀ k ∈ knownKeys, d.get? k = none) :
    ∀ k ∈ knownKeys, dget d k = JVal.jnull := by
  intro k hk
  simp [dget, h k hk]

theorem parseEnergy_id (d : Dict JVal) (s : Dict ℚ)
    (h : ∀ k ∈ knownKeys, d.get? k = none) : parseEnergy d s = s := by
  simp +decide [parseEnergy, noKnown_contains d h]

theorem parseSoc_id (d : Dict JVal) (s : Dict ℚ)
    (h : ∀ k ∈ knownKeys, d.get? k = none) : parseSoc d s = s := by
  simp +decide [parseSoc, noKnown_contains d h, noKnown_dget d h, safe_float]

theorem pvStringSum_noKnown (d : Dict JVal)
    (h : ∀ k ∈ knownKeys, d.get? k = none) : pvStringSum d = 0 := by
  simp +decide [pvStringSum, pvStringKeys, noKnown_dget d h]

theorem parsePv_id (d : Dict JVal) (s : Dict ℚ)
    (h : ∀ k ∈ knownKeys, d.get? k = none) : parsePv d s = s := by
  simp +decide [parsePv, noKnown_contains d h, pvStringSum_noKnown d h]

theorem parseBattPower_id (d : Dict JVal) (s : Dict ℚ)
    (h : ∀ k ∈ knownKeys, d.get? k = none) : parseBattPower d s = s := by
  simp +decide [parseBattPower, noKnown_contains d h, noKnown_dget d h,
    safe_float]

theorem parseGridLoad_id (d : Dict JVal) (s : Dict ℚ)
    (h : ∀ k ∈ knownKeys, d.get? k = none) : parseGridLoad d s = s := by
  simp +decide [parseGridLoad, noKnown_contains d h]

theorem gridNet_noKnown (d : Dict JVal)
    (h : ∀ k ∈ knownKeys, d.get? k = none) : gridNet d = 0 := by
  simp +decide [gridNet, noKnown_dget d h, safe_float]

theorem parseGridImportExport_noKnown (d : Dict JVal) (s : Dict ℚ)
    (h : ∀ k ∈ knownKeys, d.get? k = none) :
    parseGridImportExport d s
      = (s.set "grid_import_power" 0).set "grid_export_power" 0 := by
  simp +decide [parseGridImportExport, noKnown_contains d h,
    gridNet_noKnown d h]

/-- **C2.**  For every dict input the normalizer returns a mapping containing
all nine guaranteed canonical keys (the embedding is a total function, so no
exception can be raised), and when the record contains none of the known
source keys every one of the nine keys carries `0.0`. -/
theorem C2_guaranteed_keys (d : Dict JVal) :
    (∀ k ∈ guaranteedKeys,
      ((parse_plant_data (.pydict d)).get? k).isSome = true) ∧
    ((∀ k ∈ knownKeys, d.get? k = none) →
      ∀ k ∈ guaranteedKeys, (parse_plant_data (.pydict d)).get? k = some 0) := by
  constructor
  · intro k hk
    unfold parse_plant_data
    rw [ensureDefaults_get?_mem _ _ hk]
    simp
  · intro h k hk
    simp only [parse_plant_data]
    rw [parseEnergy_id _ _ h, parseSoc_id _ _ h, parsePv_id _ _ h,
      parseBattPower_id _ _ h, parseGridLoad_id _ _ h,
      parseGridImportExport_noKnown _ _ h, ensureDefaults_get?_mem _ _ hk]
    simp only [guaranteedKeys, List.mem_cons, List.not_mem_nil, or_false] at hk
    rcases hk with rfl | rfl | rfl | rfl | rfl | rfl | rfl | rfl | rfl <;>
      simp +decide [Dict.get?, Dict.set]

/-- A record containing only a key unknown to the normalizer. -/
def recUnknown : Dict JVal := [("hello", .jstr "world" none)]

/-- Witness for C2 at `recUnknown`. -/
theorem C2_guaranteed_keys_witness :
    (∀ k ∈ knownKeys, (recUnknown).get? k = none) ∧
    (parse_plant_data (.pydict recUnknown)).get? "pv_power" = some 0 ∧
    (parse_plant_data (.pydict recUnknown)).get? "energy_total" = some 0 := by
  have h : ∀ k ∈ knownKeys, (recUnknown).get? k = none := by decide
  exact ⟨h, (C2_guaranteed_keys recUnknown).2 h _ (by decide),
    (C2_guaranteed_keys recUnknown).2 h _ (by decide)⟩

/-! ### Battery SOC fallback (claim C7) -/

theorem parseSoc_fallback (d : Dict JVal) (s : Dict ℚ)
    (hsoc : d.contains "soc" = false)
    (hbs : s.contains "battery_soc" = false) :
    parseSoc d s =
      if safe_float (dget d "batteryCap") > 0 then
        s.set "battery_soc"
          ((safe_float (dget d "curCap") / safe_float (dget d "batteryCap")) * 100)
      else s := by
  simp [parseSoc, hsoc, hbs]

/-- **C7.**  For every raw record lacking the `soc` key, the normalizer
derives `battery_soc` as `(curCap / batteryCap) * 100` exactly when
`batteryCap > 0`; when `batteryCap` coerces to `0` (in particular when it is
absent) the division branch is skipped and `battery_soc` defaults to `0.0`
(the embedding is total, so no exception is possible). -/
theorem C7_battery_soc_fallback (d : Dict JVal)
    (hsoc : d.contains "soc" = false) :
    (safe_float (dget d "batteryCap") > 0 →
      (parse_plant_data (.pydict d)).get? "battery_soc"
        = some ((safe_float (dget d "curCap")
            / safe_float (dget d "batteryCap")) * 100)) ∧
    (safe_float (dget d "batteryCap") = 0 →
      (parse_plant_data (.pydict d)).get? "battery_soc" = some 0) := by
  have hbs : (parseEnergy d []).contains "battery_soc" = false := by
    simp [Dict.contains,
      parseEnergy_get?_untouched d [] "battery_soc" (by decide) (by decide),
      Dict.get?]
  simp only [parse_plant_data]
  have hframe : ∀ s : Dict ℚ,
      (ensureDefaults (parseGridImportExport d (parseGridLoad d
          (parseBattPower d (parsePv d s))))).get? "battery_soc"
        = some ((s.get? "battery_soc").getD 0) := by
    intro s
    rw [ensureDefaults_get?_mem _ "battery_soc" (by decide),
      parseGridImportExport_get?_untouched _ _ "battery_soc" (by decide)
        (by decide),
      parseGridLoad_get?_untouched _ _ "battery_soc" (by decide) (by decide),
      parseBattPower_get?_untouched _ _ "battery_soc" (by decide),
      parsePv_get?_untouched _ _ "battery_soc" (by decide)]
  constructor
  · intro hpos
    rw [hframe (parseSoc d (parseEnergy d [])),
      parseSoc_fallback d (parseEnergy d []) hsoc hbs, if_pos hpos,
      Dict.get?_set_self]
    simp
  · intro hzero
    have hneg : ¬ (safe_float (dget d "batteryCap") > 0) := by
      rw [hzero]; exact lt_irrefl 0
    rw [hframe (parseSoc d (parseEnergy d [])),
      parseSoc_fallback d (parseEnergy d []) hsoc hbs, if_neg hneg,
      parseEnergy_get?_untouched d [] "battery_soc" (by decide) (by decide)]
    simp [Dict.get?]

/-- Concrete record exercising C7: half-charged 200 Ah battery, no `soc`. -/
def recSoc : Dict JVal := [("curCap", .jnum 50), ("batteryCap", .jnum 200)]

/-- Witness for C7 at `recSoc`: the derived SOC is `25.0`. -/
theorem C7_battery_soc_fallback_witness :
    recSoc.contains "soc" = false ∧
    (parse_plant_data (.pydict recSoc)).get? "battery_soc" = some 25 := by
  have hsoc : recSoc.contains "soc" = false := by decide
  have hpos : safe_float (dget recSoc "batteryCap") > 0 := by
    simp +decide [recSoc, dget, Dict.get?, safe_float]
  have h := (C7_battery_soc_fallback recSoc hsoc).1 hpos
  refine ⟨hsoc, ?_⟩
  rw [h]
  simp +decide [recSoc, dget, Dict.get?, safe_float]
  norm_num

/-! ### Keys the normalizer never produces (claims C3, C4) -/

/-- `parse_plant_data` writes only the nine canonical keys: every other key
is absent from the output, whatever the input record holds. -/
theorem parse_get?_outside (d : Dict JVal) (k : String)
    (hk : k ∉ guaranteedKeys) :
    (parse_plant_data (.pydict d)).get? k = none := by
  have hk' := hk
  simp only [guaranteedKeys, List.mem_cons, List.not_mem_nil, or_false,
    not_or] at hk'
  obtain ⟨h1, h2, h3, h4, h5, h6, h7, h8, h9⟩ := hk'
  simp only [parse_plant_data]
  rw [ensureDefaults_get?_untouched _ _ hk,
    parseGridImportExport_get?_untouched _ _ _ h5 h6,
    parseGridLoad_get?_untouched _ _ _ h3 h4,
    parseBattPower_get?_untouched _ _ _ h2,
    parsePv_get?_untouched _ _ _ h1,
    parseSoc_get?_untouched _ _ _ h7,
    parseEnergy_get?_untouched _ _ _ h8 h9]
  simp [Dict.get?]

theorem parsePv_fallback (d : Dict JVal) (s : Dict ℚ)
    (hpv : d.contains "pvPower" = false)
    (hs : s.contains "pv_power" = false) :
    parsePv d s =
      if pvStringSum d ≠ 0 then s.set "pv_power" (pvStringSum d) else s := by
  simp [parsePv, hpv, hs]

/-- **C3 (amended).**  With `pvPower` absent, the normalized `pv_power` is
the MPPT string sum `Σ volt{i} * current{i}`; but no per-string
`pv_string_{i}_power` key is ever produced — the loop at api.py
lines 517-524 only accumulates the total. -/
theorem C3_pv_fallback (d : Dict JVal)
    (hpv : d.contains "pvPower" = false) :
    (parse_plant_data (.pydict d)).get? "pv_power" = some (pvStringSum d) ∧
    (∀ i ∈ [1, 2, 3, 4, 5, 6, 7, 8, 9, 10, 11, 12],
      (parse_plant_data (.pydict d)).get?
        ("pv_string_" ++ toString (i : ℕ) ++ "_power") = none) := by
  constructor
  · have hs : (parseSoc d (parseEnergy d [])).contains "pv_power" = false := by
      simp [Dict.contains,
        parseSoc_get?_untouched d _ "pv_power" (by decide),
        parseEnergy_get?_untouched d [] "pv_power" (by decide) (by decide),
        Dict.get?]
    simp only [parse_plant_data]
    have hframe : ∀ s : Dict ℚ,
        (ensureDefaults (parseGridImportExport d (parseGridLoad d
            (parseBattPower d s)))).get? "pv_power"
          = some ((s.get? "pv_power").getD 0) := by
      intro s
      rw [ensureDefaults_get?_mem _ "pv_power" (by decide),
        parseGridImportExport_get?_untouched _ _ "pv_power" (by decide)
          (by decide),
        parseGridLoad_get?_untouched _ _ "pv_power" (by decide) (by decide),
        parseBattPower_get?_untouched _ _ "pv_power" (by decide)]
    rw [hframe (parsePv d (parseSoc d (parseEnergy d []))),
      parsePv_fallback d _ hpv hs]
    by_cases hsum : pvStringSum d = 0
    · rw [if_neg (by simpa using hsum)]
      rw [parseSoc_get?_untouched d _ "pv_power" (by decide),
        parseEnergy_get?_untouched d [] "pv_power" (by decide) (by decide)]
      simp [Dict.get?, hsum]
    · rw [if_pos hsum, Dict.get?_set_self]
      simp
  · intro i hi
    fin_cases hi <;> exact parse_get?_outside d _ (by decide)

/-- Concrete record exercising C3: one MPPT string at 10 V, 5 A and no
`pvPower` key. -/
def recPvString : Dict JVal := [("volt1", .jnum 10), ("current1", .jnum 5)]

/-- Counterexample to C3 as stated: at `recPvString` the per-pair product is
the non-zero `50`, and `pv_power` does carry it, yet the output holds no
`pv_string_1_power` key at all. -/
theorem C3_counterexample :
    recPvString.contains "pvPower" = false ∧
    safe_float (dget recPvString "volt1")
        * safe_float (dget recPvString "current1") = 50 ∧
    (parse_plant_data (.pydict recPvString)).get? "pv_power" = some 50 ∧
    (parse_plant_data (.pydict recPvString)).get? "pv_string_1_power"
        = none := by
  refine ⟨by decide, ?_, ?_, ?_⟩
  · simp +decide [recPvString, dget, Dict.get?, safe_float]
    norm_num
  · simp +decide [parse_plant_data, parseEnergy, parseSoc, parsePv,
      pvStringSum, pvStringKeys, parseBattPower, parseGridLoad,
      parseGridImportExport, gridNet, ensureDefaults, Dict.get?, Dict.set,
      Dict.setdefault, Dict.contains, dget, dgetD, safe_float, truthy,
      recPvString]
    norm_num [Dict.get?, Dict.set, Dict.setdefault, Dict.contains]
  · simp +decide [parse_plant_data, parseEnergy, parseSoc, parsePv,
      pvStringSum, pvStringKeys, parseBattPower, parseGridLoad,
      parseGridImportExport, gridNet, ensureDefaults, Dict.get?, Dict.set,
      Dict.setdefault, Dict.contains, dget, dgetD, safe_float, truthy,
      recPvString]

/-- Witness for the amended C3 at `recPvString`. -/
theorem C3_pv_fallback_witness :
    recPvString.contains "pvPower" = false ∧
    (parse_plant_data (.pydict recPvString)).get? "pv_power"
        = some (pvStringSum recPvString) := by
  have h : recPvString.contains "pvPower" = false := by decide
  exact ⟨h, (C3_pv_fallback recPvString h).1⟩

/-! ### Load power (claim C4) -/

theorem parseGridLoad_load_skip (d : Dict JVal) (s : Dict ℚ)
    (h : d.contains "loadOrEpsPower" = false) :
    (parseGridLoad d s).get? "load_power" = s.get? "load_power" := by
  simp only [parseGridLoad, apply_ite (fun t : Dict ℚ => t.get? "load_power")]
  simp [h, Dict.get?_set_ne, ite_self]

/-- **C4 (amended).**  `parse_plant_data` has no fallback computation for
`load_power`: whenever the flow key `loadOrEpsPower` is absent, `load_power`
is `0.0` in the output, regardless of `inverterOutputVoltage`, `curCurrent`
or `pf` (which the normalizer never reads). -/
theorem C4_load_power_no_fallback (d : Dict JVal)
    (h : d.contains "loadOrEpsPower" = false) :
    (parse_plant_data (.pydict d)).get? "load_power" = some 0 := by
  simp only [parse_plant_data]
  rw [ensureDefaults_get?_mem _ "load_power" (by decide),
    parseGridImportExport_get?_untouched _ _ "load_power" (by decide)
      (by decide),
    parseGridLoad_load_skip _ _ h,
    parseBattPower_get?_untouched _ _ "load_power" (by decide),
    parsePv_get?_untouched _ _ "load_power" (by decide),
    parseSoc_get?_untouched _ _ "load_power" (by decide),
    parseEnergy_get?_untouched _ _ "load_power" (by decide) (by decide)]
  simp [Dict.get?]

/-- Concrete record exercising C4: 240 V output at 5 A, no `loadOrEpsPower`
and no power factor. -/
def recLoadFallback : Dict JVal :=
  [("inverterOutputVoltage", .jnum 240), ("curCurrent", .jnum 5)]

/-- Counterexample to C4 as stated: the claimed fallback product is `1200`,
but the output `load_power` is `0.0` — the normalizer has no
`inverterOutputVoltage * curCurrent * (pf or 1.0)` path. -/
theorem C4_counterexample :
    recLoadFallback.contains "loadOrEpsPower" = false ∧
    (parse_plant_data (.pydict recLoadFallback)).get? "load_power" = some 0 ∧
    (0 : ℚ) ≠ 240 * 5 := by
  refine ⟨by decide, ?_, by norm_num⟩
  simp +decide [parse_plant_data, parseEnergy, parseSoc, parsePv,
    pvStringSum, pvStringKeys, parseBattPower, parseGridLoad,
    parseGridImportExport, gridNet, ensureDefaults, Dict.get?, Dict.set,
    Dict.setdefault, Dict.contains, dget, dgetD, safe_float, truthy,
    recLoadFallback]

/-- Witness for the amended C4 at `recLoadFallback`. -/
theorem C4_load_power_no_fallback_witness :
    recLoadFallback.contains "loadOrEpsPower" = false ∧
    (parse_plant_data (.pydict recLoadFallback)).get? "load_power"
        = some 0 := by
  have h : recLoadFallback.contains "loadOrEpsPower" = false := by decide
  exact ⟨h, C4_load_power_no_fallback recLoadFallback h⟩

/-! ### Non-dict input (claim C9) -/

/-- **C9.**  For every non-dict input (`None`, a list, a string, …) the
guard at api.py lines 480-482 returns the empty mapping, so none of the nine
guaranteed canonical keys is present in the result. -/
theorem C9_non_dict_empty (v : RawInput) (h : v.isDict = false) :
    parse_plant_data v = [] ∧
    ∀ k ∈ guaranteedKeys, (parse_plant_data v).get? k = none := by
  cases v with
  | pydict d => simp [RawInput.isDict] at h
  | pynone => exact ⟨rfl, fun k _ => rfl⟩
  | pylist es => exact ⟨rfl, fun k _ => rfl⟩
  | pystr s => exact ⟨rfl, fun k _ => rfl⟩

/-- Witness for C9 at the input `None`. -/
theorem C9_non_dict_empty_witness :
    RawInput.pynone.isDict = false ∧
    parse_plant_data .pynone = [] ∧
    (parse_plant_data .pynone).get? "pv_power" = none := by
  have h := C9_non_dict_empty .pynone (by decide)
  exact ⟨by decide, h.1, h.2 "pv_power" (by decide)⟩

/-! ### The token guard of `SolArkAPI.get_plant_data` (claim C10) -/

/-- The mutable client state of `SolArkAPI` relevant to the token guard. -/
structure ClientState : Type where
  token : Option String
deriving DecidableEq

/-- Python truthiness of `self.token` (`str | None`): `None` and the empty
string are falsy. -/
def tokenTruthy : Option String → Bool
  | none => false
  | some s => decide (s ≠ "")

/-- Outcome of the entry phase of `SolArkAPI.get_plant_data`. -/
inductive FetchStart : Type
  | earlyAuthError (msg : String)
  | requestIssued
deriving DecidableEq

/-- `SolArkAPI.get_plant_data` entry (src/solark_api.py lines 180-196): the
`if not self.token` guard raises `SolArkAuthError` before any HTTP traffic.
The result triple carries the outcome, the number of HTTP requests issued up
to that decision, and the client state as left by the decision. -/
def get_plant_data_entry (st : ClientState) : FetchStart × ℕ × ClientState :=
  if tokenTruthy st.token then (.requestIssued, 1, st)
  else
    (.earlyAuthError "Not authenticated. Please call authenticate() first.",
      0, st)

/-- **C10.**  Calling `get_plant_data` with no stored token raises
`SolArkAuthError` immediately: no HTTP request is issued and the client
state is unchanged. -/
theorem C10_token_guard (st : ClientState) (h : st.token = none) :
    get_plant_data_entry st =
      (.earlyAuthError "Not authenticated. Please call authenticate() first.",
        0, st) := by
  simp [get_plant_data_entry, h, tokenTruthy]

/-- Witness for C10 at the freshly initialized client state. -/
theorem C10_token_guard_witness :
    get_plant_data_entry ⟨none⟩ =
      (.earlyAuthError "Not authenticated. Please call authenticate() first.",
        0, ⟨none⟩) :=
  C10_token_guard ⟨none⟩ rfl

/-! ### `SolArkAPI.authenticate` in Auto mode (claim C5) -/

/-- The observable outcome of one `_authenticate_with_mode` attempt
(src/solark_api.py lines 79-178): success sets the token; the four error
outcomes model the exception classes `SolArkAuthError`,
`SolArkConnectionError`, `SolArkRateLimitError` and plain `SolArkAPIError`,
each carrying its message. -/
inductive AuthOutcome : Type
  | success
  | authErr (msg : String)
  | connErr (msg : String)
  | rateLimitErr (msg : String)
  | apiErr (msg : String)
deriving DecidableEq

/-- The fixed message of the `SolArkAuthError` raised when the Auto-mode
loop exhausts both strategies (src/solark_api.py lines 73-75). -/
def allModesFailedMsg : String :=
  "Authentication failed with all modes. Please verify your credentials."

/-- `SolArkAPI.authenticate` in `Auto` mode (src/solark_api.py lines 58-75):
the loop tries `Strict` then `Legacy`; a `SolArkAuthError` is swallowed and
the next mode tried, a `SolArkConnectionError` is re-raised immediately, and
any other exception propagates uncaught.  The arguments are the outcomes
the two `_authenticate_with_mode` calls would produce; the result pairs the
overall outcome with the list of modes actually attempted, in order. -/
def authenticateAuto (strict legacy : AuthOutcome) :
    AuthOutcome × List String :=
  match strict with
  | .success => (.success, ["Strict"])
  | .authErr _ =>
      match legacy with
      | .success => (.success, ["Strict", "Legacy"])
      | .authErr _ => (.authErr allModesFailedMsg, ["Strict", "Legacy"])
      | other => (other, ["Strict", "Legacy"])
  | other => (other, ["Strict"])

/-- Counterexample to C5 as stated: when both strategies fail with auth
errors, the raised `SolArkAuthError` carries the fixed message
`allModesFailedMsg`; the result is identical for different per-strategy
messages, so the per-strategy messages are not aggregated into it (they are
only logged at debug level). -/
theorem C5_counterexample :
    (authenticateAuto (.authErr "strict rejected the password")
        (.authErr "legacy rejected the password")).1
      = .authErr allModesFailedMsg ∧
    (authenticateAuto (.authErr "strict rejected the password")
        (.authErr "legacy rejected the password")).1
      = (authenticateAuto (.authErr "completely different text")
          (.authErr "other text")).1 :=
  ⟨rfl, rfl⟩

/-- **C5 (amended).**  In Auto mode `authenticate()` tries `Strict` then
`Legacy` in order; an auth error moves on to the next strategy, a connection
error propagates immediately without attempting `Legacy`, the first strategy
yielding a token wins, and when both strategies fail with auth errors a
`SolArkAuthError` with the fixed summary message (not an aggregation of the
per-strategy messages) is raised. -/
theorem C5_auto_mode (strict legacy : AuthOutcome) :
    (strict = .success →
      authenticateAuto strict legacy = (.success, ["Strict"])) ∧
    (∀ m, strict = .authErr m → legacy = .success →
      authenticateAuto strict legacy = (.success, ["Strict", "Legacy"])) ∧
    (∀ m, strict = .connErr m →
      authenticateAuto strict legacy = (.connErr m, ["Strict"])) ∧
    (∀ m m2, strict = .authErr m → legacy = .connErr m2 →
      authenticateAuto strict legacy = (.connErr m2, ["Strict", "Legacy"])) ∧
    (∀ m m2, strict = .authErr m → legacy = .authErr m2 →
      authenticateAuto strict legacy
        = (.authErr allModesFailedMsg, ["Strict", "Legacy"])) := by
  refine ⟨fun h => ?_, fun m h1 h2 => ?_, fun m h => ?_,
    fun m m2 h1 h2 => ?_, fun m m2 h1 h2 => ?_⟩ <;>
    subst_vars <;> rfl

/-- Witness for the amended C5: Strict auth-fails and Legacy succeeds, then
Strict connection-fails and Legacy is never attempted. -/
theorem C5_auto_mode_witness :
    authenticateAuto (.authErr "invalid credentials") .success
      = (.success, ["Strict", "Legacy"]) ∧
    authenticateAuto (.connErr "cannot connect") .success
      = (.connErr "cannot connect", ["Strict"]) :=
  ⟨(C5_auto_mode (.authErr "invalid credentials") .success).2.1 _ rfl rfl,
   (C5_auto_mode (.connErr "cannot connect") .success).2.2.1 _ rfl⟩

/-! ### The fetcher merge (claim C6) -/

/-- The fixed allow-list of flow keys copied into the combined record
(api.py line 443). -/
def flowAllowList : List String :=
  ["pvPower", "battPower", "gridOrMeterPower", "loadOrEpsPower", "soc",
   "toGrid", "gridTo"]

/-- The energy overlay at the end of `_get_inverter_live_data` (api.py
lines 387-398): `etoday` / `etotal` from the first device-list entry are
inserted as `energyToday` / `energyTotal` via `setdefault`, and only when
the entry actually carries them (`is not None`). -/
def mergeInverterEnergy (live first : Dict JVal) : Dict JVal :=
  let etoday := dget first "etoday"
  let etotal := dget first "etotal"
  let live2 :=
    if etoday ≠ JVal.jnull then live.setdefault "energyToday" etoday else live
  if etotal ≠ JVal.jnull then live2.setdefault "energyTotal" etotal else live2

/-- The flow overlay of `get_plant_data` (api.py lines 441-444): iterate the
flow response in order and assign exactly the allow-listed keys into the
combined record, overwriting existing values. -/
def mergeFlowData (live flow : Dict JVal) : Dict JVal :=
  flow.foldl
    (fun acc kv => if kv.1 ∈ flowAllowList then acc.set kv.1 kv.2 else acc)
    live

theorem mergeFlowData_get?_not_in_flow (flow : Dict JVal) (live : Dict JVal)
    (k : String) (h : k ∉ flow.map Prod.fst) :
    (mergeFlowData live flow).get? k = live.get? k := by
  induction flow generalizing live with
  | nil => rfl
  | cons p t ih =>
      simp only [List.map_cons, List.mem_cons, not_or] at h
      obtain ⟨h1, h2⟩ := h
      have hstep : mergeFlowData live (p :: t)
          = mergeFlowData
              (if p.1 ∈ flowAllowList then live.set p.1 p.2 else live) t := rfl
      rw [hstep, ih _ h2]
      by_cases hp : p.1 ∈ flowAllowList
      · rw [if_pos hp, Dict.get?_set_ne _ _ h1]
      · rw [if_neg hp]

theorem mergeFlowData_get?_allowed (flow : Dict JVal) (live : Dict JVal)
    (k : String) (v : JVal) (hk : k ∈ flowAllowList)
    (hv : flow.get? k = some v) (hnd : (flow.map Prod.fst).Nodup) :
    (mergeFlowData live flow).get? k = some v := by
  induction flow generalizing live with
  | nil => simp [Dict.get?] at hv
  | cons p t ih =>
      simp only [List.map_cons, List.nodup_cons] at hnd
      obtain ⟨hp1, hnd2⟩ := hnd
      by_cases hpk : p.1 = k
      · have hv2 : p.2 = v := by
          rw [Dict.get?] at hv
          simp [hpk] at hv
          exact hv
        have hstep : mergeFlowData live (p :: t)
            = mergeFlowData (live.set p.1 p.2) t := by
          have hin : p.1 ∈ flowAllowList := by rw [hpk]; exact hk
          simp [mergeFlowData, hin]
        rw [hstep,
          mergeFlowData_get?_not_in_flow t _ k (by rw [← hpk]; exact hp1)]
        rw [hpk, Dict.get?_set_self, hv2]
      · have hv2 : Dict.get? t k = some v := by
          rw [Dict.get?] at hv
          simpa [hpk] using hv
        have hstep : mergeFlowData live (p :: t)
            = mergeFlowData
                (if p.1 ∈ flowAllowList then live.set p.1 p.2 else live)
                t := rfl
        rw [hstep, ih _ hv2 hnd2]

theorem mergeFlowData_get?_not_allowed (flow : Dict JVal) (live : Dict JVal)
    (k : String) (hk : k ∉ flowAllowList) :
    (mergeFlowData live flow).get? k = live.get? k := by
  induction flow generalizing live with
  | nil => rfl
  | cons p t ih =>
      have hstep : mergeFlowData live (p :: t)
          = mergeFlowData
              (if p.1 ∈ flowAllowList then live.set p.1 p.2 else live) t := rfl
      rw [hstep, ih]
      by_cases hp : p.1 ∈ flowAllowList
      · rw [if_pos hp, Dict.get?_set_ne _ _ (fun hh => hk (by rw [hh]; exact hp))]
      · rw [if_neg hp]

theorem mergeInverterEnergy_get?_today (live first : Dict JVal) :
    (mergeInverterEnergy live first).get? "energyToday"
      = if dget first "etoday" ≠ JVal.jnull then
          some ((live.get? "energyToday").getD (dget first "etoday"))
        else live.get? "energyToday" := by
  simp only [mergeInverterEnergy]
  by_cases h2 : dget first "etotal" ≠ JVal.jnull
  · rw [if_pos h2, Dict.get?_setdefault_ne _ _ (by decide)]
    by_cases h1 : dget first "etoday" ≠ JVal.jnull
    · rw [if_pos h1, if_pos h1, Dict.get?_setdefault_self]
    · rw [if_neg h1, if_neg h1]
  · rw [if_neg h2]
    by_cases h1 : dget first "etoday" ≠ JVal.jnull
    · rw [if_pos h1, if_pos h1, Dict.get?_setdefault_self]
    · rw [if_neg h1, if_neg h1]

theorem mergeInverterEnergy_get?_total (live first : Dict JVal) :
    (mergeInverterEnergy live first).get? "energyTotal"
      = if dget first "etotal" ≠ JVal.jnull then
          some ((live.get? "energyTotal").getD (dget first "etotal"))
        else live.get? "energyTotal" := by
  simp only [mergeInverterEnergy]
  have hpass : ∀ l2 : Dict JVal,
      (if dget first "etoday" ≠ JVal.jnull
        then l2.setdefault "energyToday" (dget first "etoday")
        else l2).get? "energyTotal" = l2.get? "energyTotal" := by
    intro l2
    by_cases h1 : dget first "etoday" ≠ JVal.jnull
    · rw [if_pos h1, Dict.get?_setdefault_ne _ _ (by decide)]
    · rw [if_neg h1]
  by_cases h2 : dget first "etotal" ≠ JVal.jnull
  · rw [if_pos h2, if_pos h2, Dict.get?_setdefault_self, hpass]
  · rw [if_neg h2, if_neg h2, hpass]

/-- **C6.**  The combined record of `get_plant_data` starts from live
telemetry; `energyToday`/`energyTotal` from the first device-list entry are
inserted only when the key is not already present (live data wins ties);
exactly the allow-listed flow keys are copied from the flow response,
overwriting any existing value, and every other flow key is ignored. -/
theorem C6_merge_semantics (live first flow : Dict JVal)
    (hnd : (flow.map Prod.fst).Nodup) :
    (live.contains "energyToday" = true →
      (mergeInverterEnergy live first).get? "energyToday"
        = live.get? "energyToday") ∧
    (live.contains "energyToday" = false →
      dget first "etoday" ≠ JVal.jnull →
      (mergeInverterEnergy live first).get? "energyToday"
        = some (dget first "etoday")) ∧
    (live.contains "energyTotal" = true →
      (mergeInverterEnergy live first).get? "energyTotal"
        = live.get? "energyTotal") ∧
    (live.contains "energyTotal" = false →
      dget first "etotal" ≠ JVal.jnull →
      (mergeInverterEnergy live first).get? "energyTotal"
        = some (dget first "etotal")) ∧
    (∀ k v, k ∈ flowAllowList → flow.get? k = some v →
      (mergeFlowData (mergeInverterEnergy live first) flow).get? k
        = some v) ∧
    (∀ k, k ∉ flowAllowList →
      (mergeFlowData (mergeInverterEnergy live first) flow).get? k
        = (mergeInverterEnergy live first).get? k) := by
  refine ⟨fun h => ?_, fun h h2 => ?_, fun h => ?_, fun h h2 => ?_,
    fun k v hk hv => mergeFlowData_get?_allowed flow _ k v hk hv hnd,
    fun k hk => mergeFlowData_get?_not_allowed flow _ k hk⟩
  · rw [mergeInverterEnergy_get?_today]
    rcases ho : live.get? "energyToday" with _ | w
    · simp [Dict.contains, ho] at h
    · by_cases h1 : dget first "etoday" ≠ JVal.jnull
      · rw [if_pos h1]
        rfl
      · rw [if_neg h1]
  · have ho : live.get? "energyToday" = none := by
      rcases hoo : live.get? "energyToday" with _ | w
      · rfl
      · rw [Dict.contains, hoo] at h
        simp at h
    rw [mergeInverterEnergy_get?_today, if_pos h2, ho]
    rfl
  · rw [mergeInverterEnergy_get?_total]
    rcases ho : live.get? "energyTotal" with _ | w
    · simp [Dict.contains, ho] at h
    · by_cases h1 : dget first "etotal" ≠ JVal.jnull
      · rw [if_pos h1]
        rfl
      · rw [if_neg h1]
  · have ho : live.get? "energyTotal" = none := by
      rcases hoo : live.get? "energyTotal" with _ | w
      · rfl
      · rw [Dict.contains, hoo] at h
        simp at h
    rw [mergeInverterEnergy_get?_total, if_pos h2, ho]
    rfl

/-- Concrete live telemetry for the C6 witness: `energyToday` already
present. -/
def liveW : Dict JVal := [("energyToday", .jnum 5), ("vac", .jnum 240)]

/-- Concrete first device-list entry for the C6 witness. -/
def firstW : Dict JVal := [("etoday", .jnum 9), ("etotal", .jnum 100)]

/-- Concrete flow response for the C6 witness: one allow-listed key, one
stray key. -/
def flowW : Dict JVal := [("pvPower", .jnum 500), ("junk", .jnum 7)]

/-- Witness for C6: live wins the `energyToday` tie, `energyTotal` is
inserted from the device entry, `pvPower` is overwritten from the flow
response, `junk` is ignored. -/
theorem C6_merge_semantics_witness :
    (mergeInverterEnergy liveW firstW).get? "energyToday"
        = liveW.get? "energyToday" ∧
    (mergeInverterEnergy liveW firstW).get? "energyTotal"
        = some (dget firstW "etotal") ∧
    (mergeFlowData (mergeInverterEnergy liveW firstW) flowW).get? "pvPower"
        = some (.jnum 500) ∧
    (mergeFlowData (mergeInverterEnergy liveW firstW) flowW).get? "junk"
        = (mergeInverterEnergy liveW firstW).get? "junk" := by
  have h := C6_merge_semantics liveW firstW flowW (by decide)
  exact ⟨h.1 (by decide), h.2.2.2.1 (by decide) (by decide),
    h.2.2.2.2.1 "pvPower" (.jnum 500) (by decide) (by decide),
    h.2.2.2.2.2 "junk" (by decide)⟩

/-! ### Two concurrent `authenticate()` calls under the auth lock (claim C8)

`SolArkAPI.authenticate` (src/solark_api.py lines 55-77) wraps its whole
body in `async with self._auth_lock`.  The body unconditionally performs a
login attempt — there is no token re-check after acquiring the lock.  The
cooperative interleaving of two tasks A and B that both call
`authenticate()` is modelled by a step relation: each task acquires the
lock, performs its login attempt (counted), and releases the lock. -/

/-- Program counter of one task running `authenticate()`. -/
inductive TaskPc : Type
  | start
  | locked
  | logged
  | finished
deriving DecidableEq

/-- Joint state of the two tasks, the `asyncio.Lock`, and the number of
network login attempts performed so far. -/
structure AuthSt : Type where
  lockFree : Bool
  pcA : TaskPc
  pcB : TaskPc
  loginCount : ℕ
deriving DecidableEq

/-- Both tasks about to enter `authenticate()`, no token, lock free. -/
def initSt : AuthSt := ⟨true, .start, .start, 0⟩

/-- One cooperative scheduling step of the two-task system. -/
inductive AuthStep : AuthSt → AuthSt → Prop
  | acquireA (s : AuthSt) (h1 : s.pcA = .start) (h2 : s.lockFree = true) :
      AuthStep s { s with lockFree := false, pcA := .locked }
  | loginA (s : AuthSt) (h : s.pcA = .locked) :
      AuthStep s { s with pcA := .logged, loginCount := s.loginCount + 1 }
  | releaseA (s : AuthSt) (h : s.pcA = .logged) :
      AuthStep s { s with pcA := .finished, lockFree := true }
  | acquireB (s : AuthSt) (h1 : s.pcB = .start) (h2 : s.lockFree = true) :
      AuthStep s { s with lockFree := false, pcB := .locked }
  | loginB (s : AuthSt) (h : s.pcB = .locked) :
      AuthStep s { s with pcB := .logged, loginCount := s.loginCount + 1 }
  | releaseB (s : AuthSt) (h : s.pcB = .logged) :
      AuthStep s { s with pcB := .finished, lockFree := true }

/-- Whether a task currently owns the lock (is inside the critical
section). -/
def holdsLock : TaskPc → Bool
  | .locked => true
  | .logged => true
  | _ => false

/-- How many login attempts a task at this program counter has performed. -/
def loginsOf : TaskPc → ℕ
  | .logged => 1
  | .finished => 1
  | _ => 0

/-- The inductive invariant: lock bookkeeping is consistent, at most one
task is inside the critical section, and the login counter equals the sum
of per-task login attempts. -/
def AuthInv (s : AuthSt) : Prop :=
  s.lockFree = !(holdsLock s.pcA || holdsLock s.pcB) ∧
  ¬(holdsLock s.pcA = true ∧ holdsLock s.pcB = true) ∧
  s.loginCount = loginsOf s.pcA + loginsOf s.pcB

theorem authInv_init : AuthInv initSt := by
  refine ⟨rfl, by decide, rfl⟩

theorem authInv_step (s s' : AuthSt) (hs : AuthInv s)
    (hstep : AuthStep s s') : AuthInv s' := by
  obtain ⟨lf, pa, pb, n⟩ := s
  obtain ⟨i1, i2, i3⟩ := hs
  cases hstep <;> subst_vars <;>
    first
      | (cases pb <;> simp_all [AuthInv, holdsLock, loginsOf])
      | (cases pa <;> simp_all [AuthInv, holdsLock, loginsOf])

theorem authInv_reach (s : AuthSt)
    (hr : Relation.ReflTransGen AuthStep initSt s) : AuthInv s := by
  induction hr with
  | refl => exact authInv_init
  | tail _ hstep ih => exact authInv_step _ _ ih hstep

/-- The interleaving in which task A runs to completion, then task B. -/
theorem authTrace_two_logins :
    Relation.ReflTransGen AuthStep initSt ⟨true, .finished, .finished, 2⟩ :=
  .head (AuthStep.acquireA initSt rfl rfl)
    (.head (AuthStep.loginA _ rfl)
      (.head (AuthStep.releaseA _ rfl)
        (.head (AuthStep.acquireB _ rfl rfl)
          (.head (AuthStep.loginB _ rfl)
            (.head (AuthStep.releaseB _ rfl) .refl)))))

/-- Counterexample to C8 as stated: a complete execution of two concurrent
`authenticate()` invocations reaches the state where both tasks have
finished and the network login counter is `2`, not `1` — the body holds the
lock but never re-checks the token, so the second caller logs in again. -/
theorem C8_counterexample :
    Relation.ReflTransGen AuthStep initSt ⟨true, .finished, .finished, 2⟩ ∧
    (2 : ℕ) ≠ 1 :=
  ⟨authTrace_two_logins, by decide⟩

/-- **C8 (amended).**  The `asyncio.Lock` does serialize the two callers —
in no reachable state are both tasks inside the locked section — but each
caller still performs its own login attempt: every completed execution of
two concurrent `authenticate()` calls performs exactly two network login
attempts, not one. -/
theorem C8_lock_serializes_two_logins (s : AuthSt)
    (hr : Relation.ReflTransGen AuthStep initSt s) :
    ¬(holdsLock s.pcA = true ∧ holdsLock s.pcB = true) ∧
    (s.pcA = .finished → s.pcB = .finished → s.loginCount = 2) := by
  have hInv := authInv_reach s hr
  refine ⟨hInv.2.1, fun hA hB => ?_⟩
  rw [hInv.2.2, hA, hB]
  rfl

/-- Witness for the amended C8 along the A-then-B interleaving. -/
theorem C8_lock_serializes_two_logins_witness :
    (AuthSt.mk true .finished .finished 2).loginCount = 2 ∧
    ¬(holdsLock (AuthSt.mk true .finished .finished 2).pcA = true ∧
      holdsLock (AuthSt.mk true .finished .finished 2).pcB = true) := by
  have h := C8_lock_serializes_two_logins _ authTrace_two_logins
  exact ⟨h.2 rfl rfl, h.1⟩
